import Mathlib

/-!
# Verification of `telemetrix_aio/telemtrix_aio_serial.py`

Shallow embedding of the `TelemetrixAioSerial` class, a cooperative
(asyncio) adapter over a blocking pyserial device handle.

Modelling conventions:

* Machine state (`AdapterState`) carries the adapter's attributes from
  `__init__` (`my_serial`, `com_port`, `sleep_tune`,
  `telemetrix_aio_instance`, `close_loop_on_error`, `start_time`) plus an
  explicit environment: the scheduler-escalation flags touched by the
  fault-handler statements (`taskCancelled`, `loopStopped`, `loopClosed`),
  a monotone clock, and the trace of `asyncio.sleep` suspensions.
* `my_serial` is modelled as `Option SerialPort` so that the spec's
  "absent marker" is statable; the source sets it at construction and
  never reassigns it, so it is `some _` on every reachable state.
* The pyserial device (external to this repository) is modelled from
  pyserial's documented behaviour: `in_waiting`, `read`, `read_until`,
  `write`, `reset_input_buffer`, `close`.  Fault injection flags model a
  driver raising `serial.SerialException`; a device call on a closed port
  raises (pyserial `PortNotOpenError`, a `SerialException`).  Each I/O
  primitive increments a `calls` counter so that "attempted a device
  call" is observable.
* Time is modelled in integral ticks (think microseconds): `time.time()`
  reads the clock, `asyncio.sleep d` advances it by `d` and records `d`
  in the suspension trace.  The poll loops of `read` / `read_until` are
  fuel-indexed; exhausted fuel yields the `spinning` outcome, meaning the
  loop is still polling (it distinguishes "has not returned yet" from any
  return value).
* Python-level return values are `PyVal` (`int`, `list`, `None`);
  exceptions that escape an operation are `PyExc`.
-/

/-- Module-level constant `LF = 0x0a` (line 24 of the source). -/
def LF : Nat := 0x0a

/-- Model of the pyserial device handle (`serial.Serial`).  `buffer` holds
the bytes the device has made available to the host; `acceptsUpTo` caps
how many bytes a `write` call is accepted for (a partial-accepting
driver model); the three fault flags inject `serial.SerialException`
into the corresponding primitive; `calls` counts attempted I/O calls. -/
structure SerialPort where
  portId : Nat
  isOpen : Bool
  buffer : List Nat
  acceptsUpTo : Nat
  writeFault : Bool
  readFault : Bool
  inWaitingFault : Bool
  calls : Nat
deriving DecidableEq, Repr

/-- Result of one pyserial primitive: a value plus the updated port, or a
raised `serial.SerialException` plus the updated port. -/
inductive DevRes (α : Type) where
  | ok : α → SerialPort → DevRes α
  | err : SerialPort → DevRes α
deriving DecidableEq, Repr

/-- Record that one I/O call was attempted on the port. -/
def bump (p : SerialPort) : SerialPort := { p with calls := p.calls + 1 }

/-- pyserial `Serial.in_waiting`: number of bytes in the receive buffer;
raises on a closed port or an injected fault. -/
def inWaiting (p : SerialPort) : DevRes Nat :=
  if p.isOpen && !p.inWaitingFault then .ok p.buffer.length (bump p)
  else .err (bump p)

/-- pyserial `Serial.read(size)`: returns up to `size` bytes — the bytes
the device had ready (fewer than `size` after the driver's own timeout). -/
def serialRead (p : SerialPort) (size : Nat) : DevRes (List Nat) :=
  if p.isOpen && !p.readFault then
    .ok (p.buffer.take size) { bump p with buffer := p.buffer.drop size }
  else .err (bump p)

/-- pyserial `Serial.read_until(expected, size)` accumulation loop: append
bytes one at a time; stop when the accumulated line ends with the
`expected` terminator sequence, when `size` is reached, or when the
device runs out of ready bytes (the driver's own timeout), returning
whatever was accumulated. -/
def pyReadUntil (term : List Nat) (sz : Option Nat) : List Nat → List Nat → List Nat
  | [], line => line
  | c :: rest, line =>
    let line' := line ++ [c]
    if term.isSuffixOf line' then line'
    else
      match sz with
      | some n => if n ≤ line'.length then line' else pyReadUntil term sz rest line'
      | none => pyReadUntil term sz rest line'

/-- pyserial `Serial.read_until` on the modelled port. -/
def serialReadUntil (p : SerialPort) (term : List Nat) (sz : Option Nat) :
    DevRes (List Nat) :=
  if p.isOpen && !p.readFault then
    let line := pyReadUntil term sz p.buffer []
    .ok line { bump p with buffer := p.buffer.drop line.length }
  else .err (bump p)

/-- pyserial `Serial.write(data)`: the driver accepts up to `acceptsUpTo`
bytes and reports how many it accepted. -/
def serialWrite (p : SerialPort) (data : List Nat) : DevRes Nat :=
  if p.isOpen && !p.writeFault then .ok (min data.length p.acceptsUpTo) (bump p)
  else .err (bump p)

/-- pyserial `Serial.close()`: guarded internally by `is_open`, hence
idempotent and never raising. -/
def serialClose (p : SerialPort) : SerialPort :=
  if p.isOpen then { p with isOpen := false } else p

/-- pyserial `Serial.reset_input_buffer()`: discards buffered unread
bytes; raises `PortNotOpenError` on a closed port. -/
def serialResetInput (p : SerialPort) : DevRes Unit :=
  if p.isOpen then .ok () { bump p with buffer := [] }
  else .err (bump p)

/-- Python `str(n).encode()` for a natural number `n`: the ASCII codes of
the decimal representation. -/
def strEncode (n : Nat) : List Nat := (Nat.repr n).toList.map Char.toNat

/-- The owning `telemetrix_aio` instance, as far as the fault handler
touches it: whether its `the_task` attribute is truthy. -/
structure Session where
  the_task : Bool
deriving DecidableEq, Repr

/-- Adapter attributes from `__init__` plus the modelled environment
(escalation flags, clock, suspension trace). -/
structure AdapterState where
  my_serial : Option SerialPort
  com_port : String
  sleep_tune : Nat
  telemetrix_aio_instance : Option Session
  close_loop_on_error : Bool
  start_time : Option Nat
  taskCancelled : Bool
  loopStopped : Bool
  loopClosed : Bool
  clock : Nat
  slept : List Nat
deriving DecidableEq, Repr

/-- Python exceptions that can escape an adapter operation. -/
inductive PyExc where
  | serialException
  | attributeError
  | typeError
deriving DecidableEq, Repr

/-- Python-level return values of the adapter operations. -/
inductive PyVal where
  | int : Nat → PyVal
  | list : List Nat → PyVal
  | none : PyVal
deriving DecidableEq, Repr

/-- Outcome of running one adapter operation: a normal return, a
propagated exception, or — for the fuel-indexed poll loops — `spinning`,
meaning the loop has not produced anything yet and is still polling. -/
inductive Outcome where
  | ret : PyVal → AdapterState → Outcome
  | raised : PyExc → AdapterState → Outcome
  | spinning : AdapterState → Outcome
deriving DecidableEq, Repr

/-- Value returned by the operation, when it returned. -/
def valueOf : Outcome → Option PyVal
  | .ret v _ => some v
  | _ => Option.none

/-- Exception propagated by the operation, when one was raised. -/
def raisedOf : Outcome → Option PyExc
  | .raised e _ => some e
  | _ => Option.none

/-- Whether the poll loop is still polling (fuel exhausted). -/
def spinningOf : Outcome → Bool
  | .spinning _ => true
  | _ => false

/-- The machine state the operation ended in (or, for `spinning`, has
reached so far). -/
def stateOf : Outcome → AdapterState
  | .ret _ st => st
  | .raised _ st => st
  | .spinning st => st

namespace TelemetrixAioSerial

/-- `await asyncio.sleep(d)`: advance the clock and record the
suspension. -/
def sleepA (st : AdapterState) (d : Nat) : AdapterState :=
  { st with clock := st.clock + d, slept := st.slept ++ [d] }

/-- `__init__`: acquire the port, store the configuration, set
`self.start_time = None`.  (`baud_rate` is passed to `serial.Serial` and
not stored on `self`.) -/
def mkAdapter (port : SerialPort) (com_port : String) (sleep_tune : Nat)
    (inst : Option Session) (close_loop_on_error : Bool) : AdapterState :=
  { my_serial := some port
    com_port := com_port
    sleep_tune := sleep_tune
    telemetrix_aio_instance := inst
    close_loop_on_error := close_loop_on_error
    start_time := Option.none
    taskCancelled := false
    loopStopped := false
    loopClosed := false
    clock := 0
    slept := [] }

/-- `close`: `if self.my_serial: self.my_serial.close()`.  The attribute
is tested for truthiness but never reassigned, so the (closed) port
object stays referenced. -/
def close (st : AdapterState) : AdapterState :=
  match st.my_serial with
  | some p => { st with my_serial := some (serialClose p) }
  | Option.none => st

/-- `get_serial`: returns `self.my_serial` unchanged. -/
def get_serial (st : AdapterState) : Option SerialPort × AdapterState :=
  (st.my_serial, st)

/-- The body of `read`'s `while True` loop (source lines 118–129),
fuel-indexed.  Each iteration: check `in_waiting`; if falsy, suspend for
`sleep_tune * 2` and retry; otherwise perform one `read(size)` call and
return `ord(data)` when `size == 1`, else `list(data)`.  A
`SerialException` anywhere in the `try` block is caught, `close` runs,
and the exception is re-raised. -/
def readLoop (size : Nat) : Nat → AdapterState → Outcome
  | 0, st => .spinning st
  | n + 1, st =>
    match st.my_serial with
    | Option.none => .raised .attributeError st
    | some p =>
      match inWaiting p with
      | .err p' => .raised .serialException (close { st with my_serial := some p' })
      | .ok w p' =>
        let st1 := { st with my_serial := some p' }
        if w = 0 then
          readLoop size n (sleepA st1 (st1.sleep_tune * 2))
        else
          match serialRead p' size with
          | .err p'' => .raised .serialException (close { st1 with my_serial := some p'' })
          | .ok data p'' =>
            let st2 := { st1 with my_serial := some p'' }
            if size = 1 then
              match data with
              | [b] => .ret (.int b) st2
              | _ => .raised .typeError st2
            else .ret (.list data) st2

/-- `read(size=1)`. -/
def read (st : AdapterState) (size : Nat := 1) (fuel : Nat := 0) : Outcome :=
  readLoop size fuel st

/-- The body of `read_until`'s `while True` loop (source lines 139–148),
fuel-indexed.  `term` is the already-encoded terminator, `T0` the
`start_time` captured once at entry.  Each iteration: if `in_waiting` is
falsy then, when `timeout` is truthy and more than `timeout` has elapsed,
return `None`; otherwise suspend for `sleep_tune` and retry.  When data
is waiting, perform one `read_until(expected, size)` call and return
`list(data)`.  `SerialException` is caught, `close` runs, re-raise. -/
def readUntilLoop (term : List Nat) (sz : Option Nat) (timeout T0 : Nat) :
    Nat → AdapterState → Outcome
  | 0, st => .spinning st
  | n + 1, st =>
    match st.my_serial with
    | Option.none => .raised .attributeError st
    | some p =>
      match inWaiting p with
      | .err p' => .raised .serialException (close { st with my_serial := some p' })
      | .ok w p' =>
        let st1 := { st with my_serial := some p' }
        if w = 0 then
          if timeout ≠ 0 ∧ st1.clock - T0 > timeout then
            .ret .none st1
          else
            readUntilLoop term sz timeout T0 n (sleepA st1 st1.sleep_tune)
        else
          match serialReadUntil p' term sz with
          | .err p'' => .raised .serialException (close { st1 with my_serial := some p'' })
          | .ok data p'' => .ret (.list data) { st1 with my_serial := some p'' }

/-- `read_until(expected=LF, size=None, timeout=1)`.  Source line 137:
`expected = str(expected).encode()` — the integer delimiter is converted
to its decimal string before being passed to the device call.  Line 138:
`start_time = time.time()` (a local; `self.start_time` is untouched).
The default timeout of 1 second is 1000000 clock ticks. -/
def read_until (st : AdapterState) (expected : Nat := LF) (sz : Option Nat := Option.none)
    (timeout : Nat := 1000000) (fuel : Nat := 0) : Outcome :=
  readUntilLoop (strEncode expected) sz timeout st.clock fuel st

/-- `future.cancel()` on the local future: no observable adapter
effect. -/
def cancelFuture (st : AdapterState) : AdapterState := st

/-- `if self.close_loop_on_error: loop = asyncio.get_event_loop();
loop.stop()`. -/
def stopLoop (st : AdapterState) : AdapterState :=
  if st.close_loop_on_error then { st with loopStopped := true } else st

/-- `if self.telemetrix_aio_instance.the_task:
self.telemetrix_aio_instance.the_task.cancel()`.  (When the instance is
`None` the attribute access would itself raise; the statement sits after
the `raise` in the source and is never reached.) -/
def cancelTask (st : AdapterState) : AdapterState :=
  match st.telemetrix_aio_instance with
  | some sess => if sess.the_task then { st with taskCancelled := true } else st
  | Option.none => st

/-- `if self.close_loop_on_error: loop.close()`. -/
def closeLoop (st : AdapterState) : AdapterState :=
  if st.close_loop_on_error then { st with loopClosed := true } else st

/-- The `except serial.SerialException` branch of `write` (source lines
87–101), written statement-for-statement in the exception monad.  The
source raises `e` on its second line; every statement sequenced after
`throw` is discarded by the monad's bind, exactly as Python never
executes statements after `raise`, so the branch's entire effect is the
`close` followed by the raise. -/
def writeFaultHandler : ExceptT PyExc (StateM AdapterState) PUnit := do
  modify close                        -- await self.close()
  throw PyExc.serialException         -- raise e
  modify cancelFuture                 -- future.cancel()                 (unreachable)
  modify stopLoop                     -- loop.stop() when policy set     (unreachable)
  modify cancelTask                   -- the_task.cancel() when present  (unreachable)
  modify (fun st => sleepA st 1000000)  -- await asyncio.sleep(1)        (unreachable)
  modify closeLoop                    -- loop.close() when policy set    (unreachable)

/-- `write(data)` (source lines 71–111).  On success the result is
wrapped in an already-resolved future and returned — but only inside
`if result:`, so a falsy (zero) byte count falls off the end of the
function and returns `None`. -/
def write (st : AdapterState) (data : List Nat) : Outcome :=
  match st.my_serial with
  | Option.none => .raised .attributeError st
  | some p =>
    match serialWrite p data with
    | .err p' =>
      match (writeFaultHandler.run).run { st with my_serial := some p' } with
      | (.error e, st') => .raised e st'
      | (.ok _, st') => .ret .none st'
    | .ok n p' =>
      let st1 := { st with my_serial := some p' }
      if n ≠ 0 then .ret (.int n) st1
      else .ret .none st1

/-- `reset_input_buffer` (source lines 151–155): a single unguarded
device call; on a closed port pyserial raises and the exception
propagates (the adapter has no handler here and does not close). -/
def reset_input_buffer (st : AdapterState) : Outcome :=
  match st.my_serial with
  | Option.none => .raised .attributeError st
  | some p =>
    match serialResetInput p with
    | .err p' => .raised .serialException { st with my_serial := some p' }
    | .ok _ p' => .ret .none { st with my_serial := some p' }

end TelemetrixAioSerial

/-! ## Test fixtures -/

/-- A fault-free open port with the given receive buffer and write-accept
cap. -/
def testPort (buf : List Nat) (acc : Nat) : SerialPort :=
  { portId := 0, isOpen := true, buffer := buf, acceptsUpTo := acc,
    writeFault := false, readFault := false, inWaitingFault := false, calls := 0 }

/-! ## Frame predicates -/

/-- The four construction-time configuration attributes are unchanged. -/
def configPreserved (st st' : AdapterState) : Prop :=
  st'.com_port = st.com_port ∧ st'.sleep_tune = st.sleep_tune ∧
  st'.telemetrix_aio_instance = st.telemetrix_aio_instance ∧
  st'.close_loop_on_error = st.close_loop_on_error

instance (st st' : AdapterState) : Decidable (configPreserved st st') := by
  unfold configPreserved; infer_instance

/-- `my_serial` still references the handle object it referenced before:
same presence, same port identity. -/
def handleKept (st st' : AdapterState) : Prop :=
  Option.map SerialPort.portId st'.my_serial = Option.map SerialPort.portId st.my_serial ∧
  st'.my_serial.isSome = st.my_serial.isSome

instance (st st' : AdapterState) : Decidable (handleKept st st') := by
  unfold handleKept; infer_instance

namespace TelemetrixAioSerial

/-! ## Helper lemmas -/

lemma configPreserved_refl (st : AdapterState) : configPreserved st st :=
  ⟨rfl, rfl, rfl, rfl⟩

lemma configPreserved_trans {s1 s2 s3 : AdapterState}
    (h12 : configPreserved s1 s2) (h23 : configPreserved s2 s3) :
    configPreserved s1 s3 := by
  obtain ⟨a, b, c, d⟩ := h12
  obtain ⟨a', b', c', d'⟩ := h23
  exact ⟨a'.trans a, b'.trans b, c'.trans c, d'.trans d⟩

lemma handleKept_refl (st : AdapterState) : handleKept st st := ⟨rfl, rfl⟩

lemma handleKept_trans {s1 s2 s3 : AdapterState}
    (h12 : handleKept s1 s2) (h23 : handleKept s2 s3) : handleKept s1 s3 :=
  ⟨h23.1.trans h12.1, h23.2.trans h12.2⟩

lemma serialClose_portId (p : SerialPort) : (serialClose p).portId = p.portId := by
  unfold serialClose; split <;> rfl

lemma serialClose_isOpen (p : SerialPort) : (serialClose p).isOpen = false := by
  unfold serialClose
  split
  · rfl
  · rename_i h; simpa using h

lemma serialClose_idem (p : SerialPort) : serialClose (serialClose p) = serialClose p := by
  unfold serialClose
  split <;> simp

lemma close_config (st : AdapterState) : configPreserved st (close st) := by
  unfold close
  split <;> exact ⟨rfl, rfl, rfl, rfl⟩

lemma close_handle (st : AdapterState) : handleKept st (close st) := by
  unfold close
  split
  · rename_i p h
    refine ⟨?_, ?_⟩ <;> simp [h, serialClose_portId]
  · exact handleKept_refl st

lemma close_close (st : AdapterState) : close (close st) = close st := by
  unfold close
  cases h : st.my_serial with
  | none => simp [h]
  | some p => simp [serialClose_idem]

lemma setPort_config (st : AdapterState) (q : Option SerialPort) :
    configPreserved st { st with my_serial := q } := ⟨rfl, rfl, rfl, rfl⟩

lemma setPort_handle (st : AdapterState) (p q : SerialPort)
    (hms : st.my_serial = some p) (hid : q.portId = p.portId) :
    handleKept st { st with my_serial := some q } := by
  constructor <;> simp [hms, hid]

lemma sleepA_config (st : AdapterState) (d : Nat) :
    configPreserved st (sleepA st d) := ⟨rfl, rfl, rfl, rfl⟩

lemma sleepA_handle (st : AdapterState) (d : Nat) :
    handleKept st (sleepA st d) := ⟨rfl, rfl⟩

lemma bump_portId (p : SerialPort) : (bump p).portId = p.portId := rfl

lemma inWaiting_err {p q : SerialPort} (h : inWaiting p = .err q) : q = bump p := by
  unfold inWaiting at h
  split at h
  · cases h
  · cases h; rfl

lemma inWaiting_ok {p q : SerialPort} {w : Nat} (h : inWaiting p = .ok w q) :
    q = bump p ∧ w = p.buffer.length := by
  unfold inWaiting at h
  split at h
  · cases h; exact ⟨rfl, rfl⟩
  · cases h

lemma serialRead_err {p q : SerialPort} {size : Nat}
    (h : serialRead p size = .err q) : q = bump p := by
  unfold serialRead at h
  split at h
  · cases h
  · cases h; rfl

lemma serialRead_ok {p q : SerialPort} {size : Nat} {data : List Nat}
    (h : serialRead p size = .ok data q) :
    q = { bump p with buffer := p.buffer.drop size } ∧ data = p.buffer.take size := by
  unfold serialRead at h
  split at h
  · cases h; exact ⟨rfl, rfl⟩
  · cases h

lemma serialReadUntil_err {p q : SerialPort} {term : List Nat} {sz : Option Nat}
    (h : serialReadUntil p term sz = .err q) : q = bump p := by
  unfold serialReadUntil at h
  split at h
  · cases h
  · cases h; rfl

lemma serialReadUntil_ok {p q : SerialPort} {term : List Nat} {sz : Option Nat}
    {data : List Nat} (h : serialReadUntil p term sz = .ok data q) :
    q = { bump p with buffer := p.buffer.drop (pyReadUntil term sz p.buffer []).length } ∧
    data = pyReadUntil term sz p.buffer [] := by
  unfold serialReadUntil at h
  split at h
  · cases h; exact ⟨rfl, rfl⟩
  · cases h

lemma serialWrite_err {p q : SerialPort} {data : List Nat}
    (h : serialWrite p data = .err q) : q = bump p := by
  unfold serialWrite at h
  split at h
  · cases h
  · cases h; rfl

lemma serialWrite_ok {p q : SerialPort} {data : List Nat} {n : Nat}
    (h : serialWrite p data = .ok n q) :
    q = bump p ∧ n = min data.length p.acceptsUpTo := by
  unfold serialWrite at h
  split at h
  · cases h; exact ⟨rfl, rfl⟩
  · cases h

lemma serialResetInput_err {p q : SerialPort}
    (h : serialResetInput p = .err q) : q = bump p := by
  unfold serialResetInput at h
  split at h
  · cases h
  · cases h; rfl

lemma serialResetInput_ok {p q : SerialPort} {u : Unit}
    (h : serialResetInput p = .ok u q) :
    q = { bump p with buffer := [] } := by
  unfold serialResetInput at h
  split at h
  · cases h; rfl
  · cases h

/-- Running the `write` fault-handler branch: its entire effect is the
`close` followed by the raised `SerialException`; the statements after
the raise contribute nothing. -/
lemma writeFaultHandler_run (st : AdapterState) :
    (writeFaultHandler.run).run st = (Except.error PyExc.serialException, close st) := rfl

/-- One no-data iteration of `readUntilLoop`: check the deadline, else
sleep one poll interval and retry. -/
lemma readUntilLoop_empty_step (term : List Nat) (sz : Option Nat) (timeout T0 n : Nat)
    (st : AdapterState) (p : SerialPort) (hms : st.my_serial = some p)
    (hopen : p.isOpen = true) (hiwf : p.inWaitingFault = false) (hbuf : p.buffer = []) :
    readUntilLoop term sz timeout T0 (n + 1) st =
      if timeout ≠ 0 ∧ st.clock - T0 > timeout then
        .ret .none { st with my_serial := some (bump p) }
      else
        readUntilLoop term sz timeout T0 n
          (sleepA { st with my_serial := some (bump p) } st.sleep_tune) := by
  simp only [readUntilLoop, hms, inWaiting, hopen, hiwf, hbuf]
  norm_num

/-- One data-bearing iteration of `readUntilLoop`: a single device
`read_until` call, whose bytes are returned as a Python list. -/
lemma readUntilLoop_data_step (term : List Nat) (sz : Option Nat) (timeout T0 n : Nat)
    (st : AdapterState) (p : SerialPort) (hms : st.my_serial = some p)
    (hopen : p.isOpen = true) (hiwf : p.inWaitingFault = false)
    (hrf : p.readFault = false) (hbuf : p.buffer ≠ []) :
    readUntilLoop term sz timeout T0 (n + 1) st =
      .ret (.list (pyReadUntil term sz p.buffer []))
        { st with my_serial := some ({ p with
            calls := p.calls + 1 + 1,
            buffer := p.buffer.drop (pyReadUntil term sz p.buffer []).length }) } := by
  have hlen : p.buffer.length ≠ 0 := by simpa using hbuf
  simp [readUntilLoop, hms, inWaiting, serialReadUntil, hopen, hiwf, hrf, hlen, bump]

lemma valueOf_of_spinning {o : Outcome} (h : spinningOf o = true) :
    valueOf o = Option.none := by
  cases o with
  | ret v st => simp [spinningOf] at h
  | raised e st => simp [spinningOf] at h
  | spinning st => rfl

lemma raisedOf_of_spinning {o : Outcome} (h : spinningOf o = true) :
    raisedOf o = Option.none := by
  cases o with
  | ret v st => simp [spinningOf] at h
  | raised e st => simp [spinningOf] at h
  | spinning st => rfl

/-- One data-bearing iteration of `readLoop` with `size = 1`: one device
read of the single waiting byte, returned as a scalar via `ord`. -/
lemma readLoop_data_one (n : Nat) (st : AdapterState) (p : SerialPort)
    (b : Nat) (rest : List Nat) (hms : st.my_serial = some p)
    (hopen : p.isOpen = true) (hiwf : p.inWaitingFault = false)
    (hrf : p.readFault = false) (hbuf : p.buffer = b :: rest) :
    readLoop 1 (n + 1) st =
      .ret (.int b)
        { st with my_serial := some ({ p with
            calls := p.calls + 1 + 1, buffer := rest }) } := by
  simp [readLoop, hms, inWaiting, serialRead, hopen, hiwf, hrf, hbuf, bump]

/-- One data-bearing iteration of `readLoop` with `size ≠ 1`: one device
read of up to `size` bytes, returned as a Python list. -/
lemma readLoop_data_many (size n : Nat) (st : AdapterState) (p : SerialPort)
    (hms : st.my_serial = some p) (hopen : p.isOpen = true)
    (hiwf : p.inWaitingFault = false) (hrf : p.readFault = false)
    (hbuf : p.buffer ≠ []) (hsize : size ≠ 1) :
    readLoop size (n + 1) st =
      .ret (.list (p.buffer.take size))
        { st with my_serial := some ({ p with
            calls := p.calls + 1 + 1, buffer := p.buffer.drop size }) } := by
  have hlen : p.buffer.length ≠ 0 := by simpa using hbuf
  simp [readLoop, hms, inWaiting, serialRead, hopen, hiwf, hrf, hlen, hsize, bump]

/-- One no-data iteration of `readLoop`: sleep `sleep_tune * 2` and
retry. -/
lemma readLoop_empty_step (size n : Nat) (st : AdapterState) (p : SerialPort)
    (hms : st.my_serial = some p) (hopen : p.isOpen = true)
    (hiwf : p.inWaitingFault = false) (hbuf : p.buffer = []) :
    readLoop size (n + 1) st =
      readLoop size n
        (sleepA { st with my_serial := some (bump p) } (st.sleep_tune * 2)) := by
  simp only [readLoop, hms, inWaiting, hopen, hiwf, hbuf]
  norm_num

/-- On a device that never reports data, `readLoop` never produces
anything: after any number of iterations it is still polling, having
suspended `sleep_tune * 2` on every iteration. -/
lemma readLoop_empty_spins (size n : Nat) :
    ∀ (st : AdapterState) (p : SerialPort),
      st.my_serial = some p → p.isOpen = true → p.inWaitingFault = false →
      p.buffer = [] →
      spinningOf (readLoop size n st) = true ∧
      (stateOf (readLoop size n st)).slept =
        st.slept ++ List.replicate n (st.sleep_tune * 2) := by
  induction n with
  | zero =>
    intro st p hms hopen hiwf hbuf
    simp [readLoop, spinningOf, stateOf]
  | succ n IH =>
    intro st p hms hopen hiwf hbuf
    rw [readLoop_empty_step size n st p hms hopen hiwf hbuf]
    have h := IH (sleepA { st with my_serial := some (bump p) } (st.sleep_tune * 2))
      (bump p) rfl (by simp [bump, hopen]) (by simp [bump, hiwf]) (by simp [bump, hbuf])
    rcases h with ⟨h1, h2⟩
    refine ⟨h1, ?_⟩
    rw [h2]
    simp [sleepA, List.replicate_succ]

/-- With a falsy (zero) timeout, the deadline check in `readUntilLoop` is
skipped, so on a device that never reports data the loop is still
polling after any number of iterations. -/
lemma readUntilLoop_zero_spins (term : List Nat) (sz : Option Nat) (T0 n : Nat) :
    ∀ (st : AdapterState) (p : SerialPort),
      st.my_serial = some p → p.isOpen = true → p.inWaitingFault = false →
      p.buffer = [] →
      spinningOf (readUntilLoop term sz 0 T0 n st) = true := by
  induction n with
  | zero =>
    intro st p hms hopen hiwf hbuf
    simp [readUntilLoop, spinningOf]
  | succ n IH =>
    intro st p hms hopen hiwf hbuf
    rw [readUntilLoop_empty_step term sz 0 T0 n st p hms hopen hiwf hbuf]
    have hno : ¬((0 : Nat) ≠ 0 ∧ st.clock - T0 > 0) := by simp
    rw [if_neg hno]
    exact IH _ (bump p) rfl (by simp [bump, hopen]) (by simp [bump, hiwf])
      (by simp [bump, hbuf])

/-- Exact run of `readUntilLoop` on a device that never reports data,
with a truthy timeout: entered with `clock = T0 + j * s` after `j`
sleeps, with enough fuel it returns `None` after exactly
`t / s + 1 - j` further sleeps of one poll interval each. -/
lemma readUntilLoop_empty_run (term : List Nat) (sz : Option Nat) (t T0 s : Nat)
    (ht : t ≠ 0) (hs : 0 < s) (n : Nat) :
    ∀ (j : Nat) (st : AdapterState) (p : SerialPort),
      st.my_serial = some p → st.sleep_tune = s → p.isOpen = true →
      p.inWaitingFault = false → p.buffer = [] →
      st.clock = T0 + j * s → j ≤ t / s →
      t / s + 1 - j + 1 ≤ n →
      valueOf (readUntilLoop term sz t T0 n st) = some PyVal.none ∧
      (stateOf (readUntilLoop term sz t T0 n st)).slept =
        st.slept ++ List.replicate (t / s + 1 - j) s := by
  induction n with
  | zero =>
    intro j st p _ _ _ _ _ _ _ hn
    omega
  | succ n IH =>
    intro j st p hms hst hopen hiwf hbuf hclock hj hn
    rw [readUntilLoop_empty_step term sz t T0 n st p hms hopen hiwf hbuf]
    have h1 : j * s ≤ (t / s) * s := Nat.mul_le_mul_right s hj
    have h2 : (t / s) * s ≤ t := Nat.div_mul_le_self t s
    have hnotyet : ¬(t ≠ 0 ∧ st.clock - T0 > t) := by
      rw [hclock]
      omega
    rw [if_neg hnotyet]
    by_cases hjlt : j < t / s
    · have hrec := IH (j + 1)
        (sleepA { st with my_serial := some (bump p) } st.sleep_tune) (bump p)
        rfl (by simp [sleepA, hst]) (by simp [bump, hopen]) (by simp [bump, hiwf])
        (by simp [bump, hbuf])
        (by simp [sleepA, hclock, hst, Nat.succ_mul]; omega)
        (by omega) (by omega)
      rcases hrec with ⟨hv, hsl⟩
      refine ⟨hv, ?_⟩
      rw [hsl]
      have hcount : t / s + 1 - j = (t / s + 1 - (j + 1)) + 1 := by omega
      rw [hcount]
      simp [sleepA, hst, List.replicate_succ]
    · have hj' : j = t / s := le_antisymm hj (not_lt.mp hjlt)
      obtain ⟨m, rfl⟩ : ∃ m, n = m + 1 := ⟨n - 1, by omega⟩
      rw [readUntilLoop_empty_step term sz t T0 m _ (bump p) rfl
        (by simp [bump, hopen]) (by simp [bump, hiwf]) (by simp [bump, hbuf])]
      have hmod : t / s * s + t % s = t := by
        rw [Nat.mul_comm]
        exact Nat.div_add_mod t s
      have hlt : t % s < s := Nat.mod_lt t hs
      have hpast : t ≠ 0 ∧
          (sleepA { st with my_serial := some (bump p) } st.sleep_tune).clock - T0 > t := by
        refine ⟨ht, ?_⟩
        simp only [sleepA, hclock, hst, hj']
        omega
      rw [if_pos hpast]
      constructor
      · simp [valueOf]
      · simp [stateOf, sleepA, hst, hj']

/-- `readLoop` touches only `my_serial`, the clock and the suspension
trace: configuration is preserved and the handle keeps its identity. -/
lemma readLoop_frame (size n : Nat) :
    ∀ st : AdapterState,
      configPreserved st (stateOf (readLoop size n st)) ∧
      handleKept st (stateOf (readLoop size n st)) := by
  induction n with
  | zero => intro st; exact ⟨configPreserved_refl st, handleKept_refl st⟩
  | succ n IH =>
    intro st
    cases hms : st.my_serial with
    | none =>
      simp only [readLoop, hms, stateOf]
      exact ⟨configPreserved_refl st, handleKept_refl st⟩
    | some p =>
      cases hiw : inWaiting p with
      | err q =>
        have hq := inWaiting_err hiw
        subst hq
        simp only [readLoop, hms, hiw, stateOf]
        exact ⟨configPreserved_trans (setPort_config st _) (close_config _),
          handleKept_trans (setPort_handle st p (bump p) hms rfl) (close_handle _)⟩
      | ok w q =>
        obtain ⟨hq, hw⟩ := inWaiting_ok hiw
        subst hq
        by_cases hw0 : w = 0
        · subst hw0
          simp only [readLoop, hms, hiw, if_pos rfl]
          have h := IH (sleepA { st with my_serial := some (bump p) }
            (({ st with my_serial := some (bump p) } : AdapterState).sleep_tune * 2))
          refine ⟨configPreserved_trans (configPreserved_trans (setPort_config st _)
            (sleepA_config _ _)) h.1, ?_⟩
          exact handleKept_trans (handleKept_trans
            (setPort_handle st p (bump p) hms rfl) (sleepA_handle _ _)) h.2
        · simp only [readLoop, hms, hiw, if_neg hw0]
          cases hsr : serialRead (bump p) size with
          | err r =>
            have hr := serialRead_err hsr
            subst hr
            simp only [stateOf]
            exact ⟨configPreserved_trans (setPort_config st _) (close_config _),
              handleKept_trans (setPort_handle st p (bump (bump p)) hms rfl)
                (close_handle _)⟩
          | ok data r =>
            obtain ⟨hr, hdata⟩ := serialRead_ok hsr
            have hid : r.portId = p.portId := by rw [hr]; rfl
            by_cases hsz : size = 1
            · subst hsz
              simp only [if_pos rfl]
              rcases data with _ | ⟨b, _ | ⟨c, tail⟩⟩ <;>
                · simp only [stateOf]
                  exact ⟨setPort_config st _, setPort_handle st p r hms hid⟩
            · simp only [if_neg hsz, stateOf]
              exact ⟨setPort_config st _, setPort_handle st p r hms hid⟩

/-- `readUntilLoop` touches only `my_serial`, the clock and the
suspension trace. -/
lemma readUntilLoop_frame (term : List Nat) (sz : Option Nat) (timeout T0 n : Nat) :
    ∀ st : AdapterState,
      configPreserved st (stateOf (readUntilLoop term sz timeout T0 n st)) ∧
      handleKept st (stateOf (readUntilLoop term sz timeout T0 n st)) := by
  induction n with
  | zero => intro st; exact ⟨configPreserved_refl st, handleKept_refl st⟩
  | succ n IH =>
    intro st
    cases hms : st.my_serial with
    | none =>
      simp only [readUntilLoop, hms, stateOf]
      exact ⟨configPreserved_refl st, handleKept_refl st⟩
    | some p =>
      cases hiw : inWaiting p with
      | err q =>
        have hq := inWaiting_err hiw
        subst hq
        simp only [readUntilLoop, hms, hiw, stateOf]
        exact ⟨configPreserved_trans (setPort_config st _) (close_config _),
          handleKept_trans (setPort_handle st p (bump p) hms rfl) (close_handle _)⟩
      | ok w q =>
        obtain ⟨hq, hw⟩ := inWaiting_ok hiw
        subst hq
        by_cases hw0 : w = 0
        · subst hw0
          simp only [readUntilLoop, hms, hiw, if_pos rfl]
          by_cases hdl : timeout ≠ 0 ∧
              ({ st with my_serial := some (bump p) } : AdapterState).clock - T0 > timeout
          · rw [if_pos hdl]
            simp only [stateOf]
            exact ⟨setPort_config st _, setPort_handle st p (bump p) hms rfl⟩
          · rw [if_neg hdl]
            have h := IH (sleepA { st with my_serial := some (bump p) }
              ({ st with my_serial := some (bump p) } : AdapterState).sleep_tune)
            refine ⟨configPreserved_trans (configPreserved_trans (setPort_config st _)
              (sleepA_config _ _)) h.1, ?_⟩
            exact handleKept_trans (handleKept_trans
              (setPort_handle st p (bump p) hms rfl) (sleepA_handle _ _)) h.2
        · simp only [readUntilLoop, hms, hiw, if_neg hw0]
          cases hsr : serialReadUntil (bump p) term sz with
          | err r =>
            have hr := serialReadUntil_err hsr
            subst hr
            simp only [stateOf]
            exact ⟨configPreserved_trans (setPort_config st _) (close_config _),
              handleKept_trans (setPort_handle st p (bump (bump p)) hms rfl)
                (close_handle _)⟩
          | ok data r =>
            obtain ⟨hr, hdata⟩ := serialReadUntil_ok hsr
            simp only [stateOf]
            have hid : r.portId = p.portId := by rw [hr]; rfl
            exact ⟨setPort_config st _, setPort_handle st p r hms hid⟩

/-- `write` touches only `my_serial` (and, on the fault path, what
`close` touches). -/
lemma write_frame (st : AdapterState) (data : List Nat) :
    configPreserved st (stateOf (write st data)) ∧
    handleKept st (stateOf (write st data)) := by
  cases hms : st.my_serial with
  | none =>
    simp only [write, hms, stateOf]
    exact ⟨configPreserved_refl st, handleKept_refl st⟩
  | some p =>
    cases hsw : serialWrite p data with
    | err q =>
      have hq := serialWrite_err hsw
      subst hq
      simp only [write, hms, hsw, writeFaultHandler_run, stateOf]
      exact ⟨configPreserved_trans (setPort_config st _) (close_config _),
        handleKept_trans (setPort_handle st p (bump p) hms rfl) (close_handle _)⟩
    | ok n q =>
      obtain ⟨hq, hn⟩ := serialWrite_ok hsw
      subst hq
      by_cases hn0 : n ≠ 0
      · simp only [write, hms, hsw, if_pos hn0, stateOf]
        exact ⟨setPort_config st _, setPort_handle st p (bump p) hms rfl⟩
      · simp only [write, hms, hsw, if_neg hn0, stateOf]
        exact ⟨setPort_config st _, setPort_handle st p (bump p) hms rfl⟩

/-- `reset_input_buffer` touches only the port's receive buffer. -/
lemma reset_input_buffer_frame (st : AdapterState) :
    configPreserved st (stateOf (reset_input_buffer st)) ∧
    handleKept st (stateOf (reset_input_buffer st)) := by
  cases hms : st.my_serial with
  | none =>
    simp only [reset_input_buffer, hms, stateOf]
    exact ⟨configPreserved_refl st, handleKept_refl st⟩
  | some p =>
    cases hsr : serialResetInput p with
    | err q =>
      have hq := serialResetInput_err hsr
      subst hq
      simp only [reset_input_buffer, hms, hsr, stateOf]
      exact ⟨setPort_config st _, setPort_handle st p (bump p) hms rfl⟩
    | ok u q =>
      have hq := serialResetInput_ok hsr
      simp only [reset_input_buffer, hms, hsr, stateOf]
      have hid : q.portId = p.portId := by rw [hq]; rfl
      exact ⟨setPort_config st _, setPort_handle st p q hms hid⟩

end TelemetrixAioSerial

open TelemetrixAioSerial

/-! ## Claim fixtures -/

/-- Concrete adapter over a faulting driver, with an owning session whose
`the_task` is truthy and with `close_loop_on_error = True`: the exact
configuration under which the claim requires task-cancel and
scheduler-halt before the raise. -/
def faultWriteAdapter : AdapterState :=
  mkAdapter ({ testPort [] 5 with writeFault := true }) "/dev/ttyACM0" 100
    (some { the_task := true }) true

/-- Concrete adapter over a driver pre-loaded with `b"HI\nOK"`. -/
def hiokAdapter : AdapterState :=
  mkAdapter (testPort [0x48, 0x49, 0x0a, 0x4f, 0x4b] 0) "/dev/ttyACM0" 100 Option.none true

/-- Concrete adapter over a driver that faults on `in_waiting` (device
unplugged while polling). -/
def faultReadAdapter : AdapterState :=
  mkAdapter ({ testPort [] 0 with inWaitingFault := true }) "/dev/ttyACM0" 100
    Option.none true

/-! ## Claims -/

/-- C1: the claim says that on every DeviceFault during `write`, before
re-raising, the adapter (a) releases its handle, (b) cancels the owning
session's task when a session is set, and (c) halts the host scheduler
when the policy flag is set — raising without (a)-(c) is non-conforming.
In the source (lines 87–101) the statements for (b) and (c) sit after
`raise e` and are dead code.  Evaluated at a faulting write with a
session configured and `close_loop_on_error = True`: the fault is
re-raised with the handle closed (a), but with the task not cancelled
(no b) and the scheduler neither stopped nor closed (no c). -/
theorem C1_write_fault_skips_cancel_and_halt :
    raisedOf (write faultWriteAdapter [1, 2]) = some PyExc.serialException ∧
    Option.map SerialPort.isOpen (stateOf (write faultWriteAdapter [1, 2])).my_serial =
      some false ∧
    (stateOf (write faultWriteAdapter [1, 2])).taskCancelled = false ∧
    (stateOf (write faultWriteAdapter [1, 2])).loopStopped = false ∧
    (stateOf (write faultWriteAdapter [1, 2])).loopClosed = false ∧
    faultWriteAdapter.telemetrix_aio_instance = some { the_task := true } ∧
    faultWriteAdapter.close_loop_on_error = true := by decide

/-- C2: the claim says `read_until()` on a device pre-loaded with
`b"HI\nOK"` returns `[0x48, 0x49, 0x0a]`, a following `read(2)` returns
`[0x4f, 0x4b]`, and the delimiter passed to the device read-until call
is the single byte given by the caller.  The source (line 137) instead
passes `str(expected).encode()`: for the default `LF = 10` that is
`b"10"` = `[0x31, 0x30]`, not the byte `0x0a`.  The device call never
finds that terminator, so `read_until()` returns all five bytes, and the
following `read(2)` finds an empty buffer and polls without returning.
Had the single delimiter byte been passed, the device call would have
produced exactly the claimed `[0x48, 0x49, 0x0a]`. -/
theorem C2_delimiter_string_encoded :
    strEncode LF = [0x31, 0x30] ∧
    strEncode LF ≠ [LF] ∧
    valueOf (read_until hiokAdapter LF Option.none 1000000 1) =
      some (PyVal.list [0x48, 0x49, 0x0a, 0x4f, 0x4b]) ∧
    PyVal.list [0x48, 0x49, 0x0a, 0x4f, 0x4b] ≠ PyVal.list [0x48, 0x49, 0x0a] ∧
    spinningOf (read (stateOf (read_until hiokAdapter LF Option.none 1000000 1)) 2 8) =
      true ∧
    pyReadUntil [LF] Option.none [0x48, 0x49, 0x0a, 0x4f, 0x4b] [] =
      [0x48, 0x49, 0x0a] := by decide

/-- C3 counterexample: the claim says a successful `write(b)` returns the
accepted byte count, in particular `0` when the driver accepts zero
bytes.  With a driver accepting zero bytes, the source's `if result:`
guard is falsy and `write` falls off the end, returning Python `None`
rather than the count `0`. -/
theorem C3_cex_zero_accept_returns_none :
    valueOf (write (mkAdapter (testPort [] 0) "/dev/ttyACM0" 100 Option.none true)
      [1, 2, 3]) = some PyVal.none ∧
    some PyVal.none ≠ some (PyVal.int 0) := by decide

/-- C3 amended: a successful `write(b)` returns the count of bytes the
driver accepted whenever that count is nonzero; when the driver accepts
zero bytes, `write` returns `None` instead of the count. -/
theorem C3_write_returns_accepted_count (st : AdapterState) (p : SerialPort)
    (data : List Nat) (hms : st.my_serial = some p) (hopen : p.isOpen = true)
    (hwf : p.writeFault = false) :
    valueOf (write st data) =
      some (if min data.length p.acceptsUpTo = 0 then PyVal.none
            else PyVal.int (min data.length p.acceptsUpTo)) := by
  have hsw : serialWrite p data = .ok (min data.length p.acceptsUpTo) (bump p) := by
    unfold serialWrite
    rw [hopen, hwf]
    rfl
  simp only [write, hms, hsw]
  by_cases h : min data.length p.acceptsUpTo = 0
  · simp [h, valueOf]
  · simp [h, valueOf]

/-- Witness for C3: a driver accepting at most 2 bytes reports 2 for a
3-byte write. -/
theorem C3_write_returns_accepted_count_witness :
    valueOf (write (mkAdapter (testPort [] 2) "/dev/ttyACM0" 100 Option.none true)
      [9, 9, 9]) =
      some (if min [9, 9, 9].length (testPort [] 2).acceptsUpTo = 0 then PyVal.none
            else PyVal.int (min [9, 9, 9].length (testPort [] 2).acceptsUpTo)) :=
  C3_write_returns_accepted_count _ _ _ rfl rfl rfl

/-- C4: `read_until` with a truthy timeout returns the explicit no-result
signal (`None`) exactly when the device never reports data available
before the deadline computed once at entry; the total suspension never
exceeds the timeout by more than one poll interval; and `None` is
distinguishable from a zero-length successful read (`[]`). -/
theorem C4_read_until_timeout_no_result (st : AdapterState) (p : SerialPort) (e : Nat)
    (sz : Option Nat) (t fuel : Nat)
    (hms : st.my_serial = some p) (hopen : p.isOpen = true)
    (hiwf : p.inWaitingFault = false) (hrf : p.readFault = false)
    (ht : t ≠ 0) (hs : 0 < st.sleep_tune)
    (hfuel : t / st.sleep_tune + 2 ≤ fuel) :
    (valueOf (read_until st e sz t fuel) = some PyVal.none ↔ p.buffer = []) ∧
    ((stateOf (read_until st e sz t fuel)).slept.drop st.slept.length).sum
      ≤ t + st.sleep_tune ∧
    PyVal.none ≠ PyVal.list [] := by
  unfold read_until
  by_cases hbuf : p.buffer = []
  · have hrun := readUntilLoop_empty_run (strEncode e) sz t st.clock st.sleep_tune ht hs
      fuel 0 st p hms rfl hopen hiwf hbuf (by simp) (Nat.zero_le _)
      (by rw [Nat.sub_zero]; exact hfuel)
    rcases hrun with ⟨hv, hsl⟩
    refine ⟨by simp [hv, hbuf], ?_, by simp⟩
    rw [hsl]
    have hdrop :
        (st.slept ++ List.replicate (t / st.sleep_tune + 1 - 0) st.sleep_tune).drop
          st.slept.length = List.replicate (t / st.sleep_tune + 1) st.sleep_tune := by
      simp [List.drop_left]
    rw [hdrop]
    have hsum : (List.replicate (t / st.sleep_tune + 1) st.sleep_tune).sum =
        (t / st.sleep_tune + 1) * st.sleep_tune := by
      simp [List.sum_replicate, smul_eq_mul]
    rw [hsum]
    have h2 : t / st.sleep_tune * st.sleep_tune ≤ t := Nat.div_mul_le_self t st.sleep_tune
    have h3 : (t / st.sleep_tune + 1) * st.sleep_tune =
        t / st.sleep_tune * st.sleep_tune + st.sleep_tune := by rw [Nat.succ_mul]
    rw [h3]
    exact Nat.add_le_add_right h2 _
  · have hf1 : 1 ≤ fuel := le_trans (Nat.succ_le_succ (Nat.zero_le _)) hfuel
    obtain ⟨m, rfl⟩ : ∃ m, fuel = m + 1 := ⟨fuel - 1, (Nat.succ_pred_eq_of_pos hf1).symm⟩
    rw [readUntilLoop_data_step (strEncode e) sz t st.clock m st p hms hopen hiwf hrf hbuf]
    refine ⟨?_, ?_, by simp⟩
    · constructor
      · intro h
        simp [valueOf] at h
      · intro h
        exact absurd h hbuf
    · simp [stateOf]

/-- Witness for C4 at a concrete input: empty device, poll interval 2,
timeout 3, fuel 3. -/
theorem C4_read_until_timeout_no_result_witness :
    (valueOf (read_until (mkAdapter (testPort [] 0) "/dev/ttyACM0" 2 Option.none true)
        10 Option.none 3 3) = some PyVal.none ↔ (testPort [] 0).buffer = []) ∧
    ((stateOf (read_until (mkAdapter (testPort [] 0) "/dev/ttyACM0" 2 Option.none true)
        10 Option.none 3 3)).slept.drop
      (mkAdapter (testPort [] 0) "/dev/ttyACM0" 2 Option.none true).slept.length).sum
      ≤ 3 + (mkAdapter (testPort [] 0) "/dev/ttyACM0" 2 Option.none true).sleep_tune ∧
    PyVal.none ≠ PyVal.list [] :=
  C4_read_until_timeout_no_result
    (mkAdapter (testPort [] 0) "/dev/ttyACM0" 2 Option.none true) (testPort [] 0)
    10 Option.none 3 3 rfl rfl rfl rfl (by decide) (by decide) (by decide)

namespace TelemetrixAioSerial

lemma inWaiting_fault_err {p : SerialPort}
    (h : p.isOpen = false ∨ p.inWaitingFault = true) :
    inWaiting p = .err (bump p) := by
  unfold inWaiting
  rcases h with h | h <;> simp [h]

/-- A faulting (or closed) port makes the first `readLoop` iteration
catch a `SerialException`, run `close`, and re-raise. -/
lemma readLoop_fault_step (size n : Nat) (st : AdapterState) (p : SerialPort)
    (hms : st.my_serial = some p)
    (h : p.isOpen = false ∨ p.inWaitingFault = true) :
    readLoop size (n + 1) st =
      .raised .serialException (close { st with my_serial := some (bump p) }) := by
  simp only [readLoop, hms, inWaiting_fault_err h]

lemma serialClose_calls (p : SerialPort) : (serialClose p).calls = p.calls := by
  unfold serialClose
  split <;> rfl

lemma close_setPort (st : AdapterState) (q : SerialPort) :
    close { st with my_serial := some q } =
      { st with my_serial := some (serialClose q) } := rfl

lemma close_iterate (k : Nat) : ∀ st : AdapterState,
    Nat.iterate close (k + 1) st = close st := by
  induction k with
  | zero => intro st; rfl
  | succ k IH =>
    intro st
    rw [Function.iterate_succ_apply, IH (close st), close_close]

end TelemetrixAioSerial

/-- C5 counterexample: the claim says that after a DeviceFault every
subsequent operation fails fast because the handle is absent, without
attempting a new device call, and `get_serial` returns an absent/closed
marker.  Concretely: after a faulting `read`, the port object has seen 1
device call; a subsequent `read` raises only after attempting another
device call on the still-referenced closed port (the counter rises to
2), and `get_serial` returns the port object, not the absent marker. -/
theorem C5_cex_new_device_call_attempted :
    Option.map SerialPort.calls (stateOf (read faultReadAdapter 1 1)).my_serial =
      some 1 ∧
    Option.map SerialPort.calls
      (stateOf (read (stateOf (read faultReadAdapter 1 1)) 1 1)).my_serial = some 2 ∧
    some (2 : Nat) ≠ some (1 : Nat) ∧
    (get_serial (stateOf (read faultReadAdapter 1 1))).1 ≠ Option.none := by decide

/-- C5 amended: after a DeviceFault the adapter keeps referencing the
same, now closed, port object (`get_serial` returns it — not an absent
marker); a subsequent operation does attempt a device call, which raises
on the closed port, so it fails with a propagated DeviceFault rather
than by a handle-absence guard; and `close()` may be repeated any number
of times without raising, leaving the state fixed after the first
call. -/
theorem C5_post_fault_fail_fast (st : AdapterState) (p : SerialPort) (fuel k : Nat)
    (hms : st.my_serial = some p) (hflt : p.inWaitingFault = true) :
    raisedOf (read st 1 (fuel + 1)) = some PyExc.serialException ∧
    (stateOf (read st 1 (fuel + 1))).my_serial = some (serialClose (bump p)) ∧
    (get_serial (stateOf (read st 1 (fuel + 1)))).1 ≠ Option.none ∧
    (serialClose (bump p)).isOpen = false ∧
    raisedOf (read (stateOf (read st 1 (fuel + 1))) 1 (fuel + 1)) =
      some PyExc.serialException ∧
    Option.map SerialPort.calls
      (stateOf (read (stateOf (read st 1 (fuel + 1))) 1 (fuel + 1))).my_serial =
      some (p.calls + 1 + 1) ∧
    Nat.iterate TelemetrixAioSerial.close (k + 1) (stateOf (read st 1 (fuel + 1))) =
      TelemetrixAioSerial.close (stateOf (read st 1 (fuel + 1))) := by
  have h1 : TelemetrixAioSerial.read st 1 (fuel + 1) =
      .raised .serialException
        (TelemetrixAioSerial.close { st with my_serial := some (bump p) }) := by
    unfold TelemetrixAioSerial.read
    exact readLoop_fault_step 1 fuel st p hms (Or.inr hflt)
  rw [h1, close_setPort]
  have h2 : TelemetrixAioSerial.read
      { st with my_serial := some (serialClose (bump p)) } 1 (fuel + 1) =
      .raised .serialException
        (TelemetrixAioSerial.close { st with
          my_serial := some (bump (serialClose (bump p))) }) := by
    unfold TelemetrixAioSerial.read
    exact readLoop_fault_step 1 fuel _ (serialClose (bump p)) rfl
      (Or.inl (serialClose_isOpen _))
  refine ⟨rfl, rfl, by simp [get_serial, stateOf], serialClose_isOpen _, ?_, ?_, ?_⟩
  · simp only [stateOf, h2, raisedOf]
  · simp only [stateOf, h2, close_setPort]
    simp [serialClose_calls, bump]
  · exact close_iterate k _

/-- Witness for C5 at a concrete input: a port whose `in_waiting`
faults, one repeat of `close`. -/
theorem C5_post_fault_fail_fast_witness :
    raisedOf (read faultReadAdapter 1 (0 + 1)) = some PyExc.serialException ∧
    (stateOf (read faultReadAdapter 1 (0 + 1))).my_serial =
      some (serialClose (bump ({ testPort [] 0 with inWaitingFault := true }))) ∧
    (get_serial (stateOf (read faultReadAdapter 1 (0 + 1)))).1 ≠ Option.none ∧
    (serialClose (bump ({ testPort [] 0 with inWaitingFault := true }))).isOpen = false ∧
    raisedOf (read (stateOf (read faultReadAdapter 1 (0 + 1))) 1 (0 + 1)) =
      some PyExc.serialException ∧
    Option.map SerialPort.calls
      (stateOf (read (stateOf (read faultReadAdapter 1 (0 + 1))) 1 (0 + 1))).my_serial =
      some (({ testPort [] 0 with inWaitingFault := true }) : SerialPort).calls.succ.succ ∧
    Nat.iterate TelemetrixAioSerial.close (1 + 1) (stateOf (read faultReadAdapter 1 (0 + 1))) =
      TelemetrixAioSerial.close (stateOf (read faultReadAdapter 1 (0 + 1))) :=
  C5_post_fault_fail_fast faultReadAdapter ({ testPort [] 0 with inWaitingFault := true })
    0 1 rfl rfl

/-- C6: on a device with bytes ready, `read(1)` returns the single
waiting byte as a scalar (`ord`), and `read(size)` with `size ≥ 2`
returns the ordered list produced by exactly one underlying device read
call — up to `size` bytes, fewer when the device had fewer ready — with
no accumulation across poll iterations: exactly two device calls happen
(`in_waiting` plus one `read`), the consumed bytes are exactly those
returned, and no suspension is recorded. -/
theorem C6_read_single_device_call (st : AdapterState) (p : SerialPort)
    (b : Nat) (rest : List Nat) (size fuel : Nat)
    (hms : st.my_serial = some p) (hopen : p.isOpen = true)
    (hiwf : p.inWaitingFault = false) (hrf : p.readFault = false)
    (hbuf : p.buffer = b :: rest) (hsize : 2 ≤ size) :
    valueOf (TelemetrixAioSerial.read st 1 (fuel + 1)) = some (PyVal.int b) ∧
    valueOf (TelemetrixAioSerial.read st size (fuel + 1)) =
      some (PyVal.list (p.buffer.take size)) ∧
    Option.map SerialPort.buffer
      (stateOf (TelemetrixAioSerial.read st size (fuel + 1))).my_serial =
      some (p.buffer.drop size) ∧
    Option.map SerialPort.calls
      (stateOf (TelemetrixAioSerial.read st size (fuel + 1))).my_serial =
      some (p.calls + 1 + 1) ∧
    (stateOf (TelemetrixAioSerial.read st size (fuel + 1))).slept = st.slept := by
  have hone : TelemetrixAioSerial.read st 1 (fuel + 1) =
      .ret (.int b) { st with my_serial := some ({ p with
        calls := p.calls + 1 + 1, buffer := rest }) } := by
    unfold TelemetrixAioSerial.read
    exact readLoop_data_one fuel st p b rest hms hopen hiwf hrf hbuf
  have hne : p.buffer ≠ [] := by simp [hbuf]
  have hs1 : size ≠ 1 := by omega
  have hmany : TelemetrixAioSerial.read st size (fuel + 1) =
      .ret (.list (p.buffer.take size)) { st with my_serial := some ({ p with
        calls := p.calls + 1 + 1, buffer := p.buffer.drop size }) } := by
    unfold TelemetrixAioSerial.read
    exact readLoop_data_many size fuel st p hms hopen hiwf hrf hne hs1
  rw [hone, hmany]
  exact ⟨rfl, rfl, rfl, rfl, rfl⟩

/-- Witness for C6: device holding `[5, 6, 7]`, `read(1)` yields `5` and
`read(2)` yields `[5, 6]` with two device calls and no suspension. -/
theorem C6_read_single_device_call_witness :
    valueOf (TelemetrixAioSerial.read
      (mkAdapter (testPort [5, 6, 7] 0) "/dev/ttyACM0" 100 Option.none true) 1 (0 + 1)) =
      some (PyVal.int 5) ∧
    valueOf (TelemetrixAioSerial.read
      (mkAdapter (testPort [5, 6, 7] 0) "/dev/ttyACM0" 100 Option.none true) 2 (0 + 1)) =
      some (PyVal.list ((testPort [5, 6, 7] 0).buffer.take 2)) ∧
    Option.map SerialPort.buffer
      (stateOf (TelemetrixAioSerial.read
        (mkAdapter (testPort [5, 6, 7] 0) "/dev/ttyACM0" 100 Option.none true) 2
        (0 + 1))).my_serial = some ((testPort [5, 6, 7] 0).buffer.drop 2) ∧
    Option.map SerialPort.calls
      (stateOf (TelemetrixAioSerial.read
        (mkAdapter (testPort [5, 6, 7] 0) "/dev/ttyACM0" 100 Option.none true) 2
        (0 + 1))).my_serial = some ((testPort [5, 6, 7] 0).calls + 1 + 1) ∧
    (stateOf (TelemetrixAioSerial.read
      (mkAdapter (testPort [5, 6, 7] 0) "/dev/ttyACM0" 100 Option.none true) 2
      (0 + 1))).slept =
      (mkAdapter (testPort [5, 6, 7] 0) "/dev/ttyACM0" 100 Option.none true).slept :=
  C6_read_single_device_call
    (mkAdapter (testPort [5, 6, 7] 0) "/dev/ttyACM0" 100 Option.none true)
    (testPort [5, 6, 7] 0) 5 [6, 7] 2 0 rfl rfl rfl rfl rfl (by decide)

/-- C7 counterexample: the claim says `read` suspends for exactly one
poll interval per no-data iteration; but the source (line 121) suspends
for `sleep_tune * 2`.  With `sleep_tune = 100`, one no-data iteration of
`read` records a suspension of `200`, not one poll interval of `100`. -/
theorem C7_cex_double_poll_interval :
    (mkAdapter (testPort [] 0) "/dev/ttyACM0" 100 Option.none true).sleep_tune = 100 ∧
    (stateOf (TelemetrixAioSerial.read
      (mkAdapter (testPort [] 0) "/dev/ttyACM0" 100 Option.none true) 1 1)).slept =
      [200] ∧
    (200 : Nat) ≠ 100 := by decide

/-- C7 amended: `read` has no timeout: on a device that never reports
data it retries indefinitely — after any number of iterations it is
still polling and has returned nothing (no value, no timeout/no-result
outcome, no exception) — suspending for twice the poll interval
(`sleep_tune * 2`) on every iteration. -/
theorem C7_read_polls_indefinitely (st : AdapterState) (p : SerialPort)
    (size fuel : Nat) (hms : st.my_serial = some p) (hopen : p.isOpen = true)
    (hiwf : p.inWaitingFault = false) (hbuf : p.buffer = []) :
    spinningOf (TelemetrixAioSerial.read st size fuel) = true ∧
    valueOf (TelemetrixAioSerial.read st size fuel) = Option.none ∧
    raisedOf (TelemetrixAioSerial.read st size fuel) = Option.none ∧
    (stateOf (TelemetrixAioSerial.read st size fuel)).slept =
      st.slept ++ List.replicate fuel (st.sleep_tune * 2) := by
  have h := readLoop_empty_spins size fuel st p hms hopen hiwf hbuf
  exact ⟨h.1, valueOf_of_spinning h.1, raisedOf_of_spinning h.1, h.2⟩

/-- Witness for C7 at a concrete input: empty device, three iterations. -/
theorem C7_read_polls_indefinitely_witness :
    spinningOf (TelemetrixAioSerial.read
      (mkAdapter (testPort [] 0) "/dev/ttyACM0" 100 Option.none true) 1 3) = true ∧
    valueOf (TelemetrixAioSerial.read
      (mkAdapter (testPort [] 0) "/dev/ttyACM0" 100 Option.none true) 1 3) =
      Option.none ∧
    raisedOf (TelemetrixAioSerial.read
      (mkAdapter (testPort [] 0) "/dev/ttyACM0" 100 Option.none true) 1 3) =
      Option.none ∧
    (stateOf (TelemetrixAioSerial.read
      (mkAdapter (testPort [] 0) "/dev/ttyACM0" 100 Option.none true) 1 3)).slept =
      (mkAdapter (testPort [] 0) "/dev/ttyACM0" 100 Option.none true).slept ++
        List.replicate 3
          ((mkAdapter (testPort [] 0) "/dev/ttyACM0" 100 Option.none true).sleep_tune * 2) :=
  C7_read_polls_indefinitely
    (mkAdapter (testPort [] 0) "/dev/ttyACM0" 100 Option.none true)
    (testPort [] 0) 1 3 rfl rfl rfl rfl

/-- C8 counterexample: the claim says that when neither the delimiter nor
a byte-count bound is reached, `read_until` returns the no-result signal
and never a partial sequence.  Concretely: the device holds a single
byte `0x41`; the delimiter byte `LF` occurs nowhere and no byte-count
bound is given, yet `read_until` returns the partial sequence `[0x41]`
rather than the no-result signal. -/
theorem C8_cex_partial_sequence_returned :
    valueOf (read_until (mkAdapter (testPort [0x41] 0) "/dev/ttyACM0" 100 Option.none true)
      LF Option.none 1000000 1) = some (PyVal.list [0x41]) ∧
    some (PyVal.list [0x41]) ≠ some PyVal.none ∧
    LF ∉ [0x41] := by decide

/-- C8 amended: whenever the device reports data available, `read_until`
returns exactly the byte sequence the single underlying device
read-until call produced (which may be a partial sequence without the
delimiter, or — because the terminator passed down is the decimal-string
encoding of the delimiter — bytes beyond the first occurrence of the
delimiter byte), performing exactly two device calls; the no-result
signal arises only when the device never reports data before the
deadline. -/
theorem C8_read_until_returns_device_chunk (st : AdapterState) (p : SerialPort)
    (e : Nat) (sz : Option Nat) (t fuel : Nat)
    (hms : st.my_serial = some p) (hopen : p.isOpen = true)
    (hiwf : p.inWaitingFault = false) (hrf : p.readFault = false)
    (hbuf : p.buffer ≠ []) :
    valueOf (read_until st e sz t (fuel + 1)) =
      some (PyVal.list (pyReadUntil (strEncode e) sz p.buffer [])) ∧
    Option.map SerialPort.calls
      (stateOf (read_until st e sz t (fuel + 1))).my_serial =
      some (p.calls + 1 + 1) := by
  unfold read_until
  rw [readUntilLoop_data_step (strEncode e) sz t st.clock fuel st p hms hopen hiwf hrf hbuf]
  exact ⟨rfl, rfl⟩

/-- Witness for C8: device holding `[0x41]`, default delimiter. -/
theorem C8_read_until_returns_device_chunk_witness :
    valueOf (read_until (mkAdapter (testPort [0x41] 0) "/dev/ttyACM0" 100 Option.none true)
      LF Option.none 1000000 (0 + 1)) =
      some (PyVal.list (pyReadUntil (strEncode LF) Option.none
        (testPort [0x41] 0).buffer [])) ∧
    Option.map SerialPort.calls
      (stateOf (read_until (mkAdapter (testPort [0x41] 0) "/dev/ttyACM0" 100 Option.none true)
        LF Option.none 1000000 (0 + 1))).my_serial =
      some ((testPort [0x41] 0).calls + 1 + 1) :=
  C8_read_until_returns_device_chunk
    (mkAdapter (testPort [0x41] 0) "/dev/ttyACM0" 100 Option.none true)
    (testPort [0x41] 0) LF Option.none 1000000 0 rfl rfl rfl rfl (by decide)

/-- C9: with a falsy timeout (`timeout = 0`) the deadline check
`if timeout and ...` is skipped, so against a device that never reports
data `read_until` never returns the no-result signal (nor anything
else): after any number of iterations it is still polling, like
`read`. -/
theorem C9_zero_timeout_polls_forever (st : AdapterState) (p : SerialPort)
    (e : Nat) (sz : Option Nat) (fuel : Nat)
    (hms : st.my_serial = some p) (hopen : p.isOpen = true)
    (hiwf : p.inWaitingFault = false) (hbuf : p.buffer = []) :
    spinningOf (read_until st e sz 0 fuel) = true ∧
    valueOf (read_until st e sz 0 fuel) = Option.none ∧
    raisedOf (read_until st e sz 0 fuel) = Option.none := by
  have h := readUntilLoop_zero_spins (strEncode e) sz st.clock fuel st p hms hopen hiwf hbuf
  exact ⟨h, valueOf_of_spinning h, raisedOf_of_spinning h⟩

/-- Witness for C9 at a concrete input: empty device, five iterations,
timeout 0. -/
theorem C9_zero_timeout_polls_forever_witness :
    spinningOf (read_until (mkAdapter (testPort [] 0) "/dev/ttyACM0" 100 Option.none true)
      10 Option.none 0 5) = true ∧
    valueOf (read_until (mkAdapter (testPort [] 0) "/dev/ttyACM0" 100 Option.none true)
      10 Option.none 0 5) = Option.none ∧
    raisedOf (read_until (mkAdapter (testPort [] 0) "/dev/ttyACM0" 100 Option.none true)
      10 Option.none 0 5) = Option.none :=
  C9_zero_timeout_polls_forever
    (mkAdapter (testPort [] 0) "/dev/ttyACM0" 100 Option.none true)
    (testPort [] 0) 10 Option.none 5 rfl rfl rfl rfl

/-- C10: every operation — `write`, `read`, `read_until`,
`reset_input_buffer`, `close`, `get_serial` — leaves the configuration
attributes (`com_port`, `sleep_tune`, `telemetrix_aio_instance`,
`close_loop_on_error`) unchanged and never reassigns `my_serial`: the
attribute keeps referencing a port with the same identity.  In
particular `close()` closes the port object but leaves `my_serial`
referencing that same (now closed) object, so `get_serial()` after
`close()` returns it rather than an absent marker. -/
theorem C10_operations_preserve_config (st : AdapterState) (p : SerialPort)
    (data : List Nat) (size e : Nat) (sz : Option Nat) (t fuel : Nat)
    (hms : st.my_serial = some p) :
    (configPreserved st (stateOf (write st data)) ∧
      handleKept st (stateOf (write st data))) ∧
    (configPreserved st (stateOf (TelemetrixAioSerial.read st size fuel)) ∧
      handleKept st (stateOf (TelemetrixAioSerial.read st size fuel))) ∧
    (configPreserved st (stateOf (read_until st e sz t fuel)) ∧
      handleKept st (stateOf (read_until st e sz t fuel))) ∧
    (configPreserved st (stateOf (reset_input_buffer st)) ∧
      handleKept st (stateOf (reset_input_buffer st))) ∧
    (configPreserved st (TelemetrixAioSerial.close st) ∧
      handleKept st (TelemetrixAioSerial.close st)) ∧
    ((get_serial st).2 = st ∧ (get_serial st).1 = st.my_serial) ∧
    ((get_serial (TelemetrixAioSerial.close st)).1 = some (serialClose p) ∧
      (serialClose p).portId = p.portId ∧
      (serialClose p).isOpen = false ∧
      (get_serial (TelemetrixAioSerial.close st)).1 ≠ Option.none) := by
  refine ⟨write_frame st data, ?_, ?_, reset_input_buffer_frame st,
    ⟨close_config st, close_handle st⟩, ⟨rfl, rfl⟩, ?_⟩
  · unfold TelemetrixAioSerial.read
    exact readLoop_frame size fuel st
  · unfold read_until
    exact readUntilLoop_frame (strEncode e) sz t st.clock fuel st
  · have hc : TelemetrixAioSerial.close st =
        { st with my_serial := some (serialClose p) } := by
      unfold TelemetrixAioSerial.close
      rw [hms]
    rw [hc]
    exact ⟨rfl, serialClose_portId p, serialClose_isOpen p, by simp [get_serial]⟩

/-- Witness for C10 at a concrete input. -/
theorem C10_operations_preserve_config_witness :
    (configPreserved (mkAdapter (testPort [3] 4) "/dev/ttyACM0" 100 Option.none true)
        (stateOf (write (mkAdapter (testPort [3] 4) "/dev/ttyACM0" 100 Option.none true)
          [1])) ∧
      handleKept (mkAdapter (testPort [3] 4) "/dev/ttyACM0" 100 Option.none true)
        (stateOf (write (mkAdapter (testPort [3] 4) "/dev/ttyACM0" 100 Option.none true)
          [1]))) ∧
    (configPreserved (mkAdapter (testPort [3] 4) "/dev/ttyACM0" 100 Option.none true)
        (stateOf (TelemetrixAioSerial.read
          (mkAdapter (testPort [3] 4) "/dev/ttyACM0" 100 Option.none true) 1 2)) ∧
      handleKept (mkAdapter (testPort [3] 4) "/dev/ttyACM0" 100 Option.none true)
        (stateOf (TelemetrixAioSerial.read
          (mkAdapter (testPort [3] 4) "/dev/ttyACM0" 100 Option.none true) 1 2))) ∧
    (configPreserved (mkAdapter (testPort [3] 4) "/dev/ttyACM0" 100 Option.none true)
        (stateOf (read_until (mkAdapter (testPort [3] 4) "/dev/ttyACM0" 100 Option.none true)
          10 Option.none 3 2)) ∧
      handleKept (mkAdapter (testPort [3] 4) "/dev/ttyACM0" 100 Option.none true)
        (stateOf (read_until (mkAdapter (testPort [3] 4) "/dev/ttyACM0" 100 Option.none true)
          10 Option.none 3 2))) ∧
    (configPreserved (mkAdapter (testPort [3] 4) "/dev/ttyACM0" 100 Option.none true)
        (stateOf (reset_input_buffer
          (mkAdapter (testPort [3] 4) "/dev/ttyACM0" 100 Option.none true))) ∧
      handleKept (mkAdapter (testPort [3] 4) "/dev/ttyACM0" 100 Option.none true)
        (stateOf (reset_input_buffer
          (mkAdapter (testPort [3] 4) "/dev/ttyACM0" 100 Option.none true)))) ∧
    (configPreserved (mkAdapter (testPort [3] 4) "/dev/ttyACM0" 100 Option.none true)
        (TelemetrixAioSerial.close
          (mkAdapter (testPort [3] 4) "/dev/ttyACM0" 100 Option.none true)) ∧
      handleKept (mkAdapter (testPort [3] 4) "/dev/ttyACM0" 100 Option.none true)
        (TelemetrixAioSerial.close
          (mkAdapter (testPort [3] 4) "/dev/ttyACM0" 100 Option.none true))) ∧
    ((get_serial (mkAdapter (testPort [3] 4) "/dev/ttyACM0" 100 Option.none true)).2 =
        mkAdapter (testPort [3] 4) "/dev/ttyACM0" 100 Option.none true ∧
      (get_serial (mkAdapter (testPort [3] 4) "/dev/ttyACM0" 100 Option.none true)).1 =
        (mkAdapter (testPort [3] 4) "/dev/ttyACM0" 100 Option.none true).my_serial) ∧
    ((get_serial (TelemetrixAioSerial.close
        (mkAdapter (testPort [3] 4) "/dev/ttyACM0" 100 Option.none true))).1 =
        some (serialClose (testPort [3] 4)) ∧
      (serialClose (testPort [3] 4)).portId = (testPort [3] 4).portId ∧
      (serialClose (testPort [3] 4)).isOpen = false ∧
      (get_serial (TelemetrixAioSerial.close
        (mkAdapter (testPort [3] 4) "/dev/ttyACM0" 100 Option.none true))).1 ≠
        Option.none) :=
  C10_operations_preserve_config
    (mkAdapter (testPort [3] 4) "/dev/ttyACM0" 100 Option.none true)
    (testPort [3] 4) [1] 1 10 Option.none 3 2 rfl
